import Mathlib

/-!
Verification of the Game of Life simulator (application.ino) against its
natural-language specification.  The code is shallowly embedded: the grid
is a function from (row, column) coordinates to booleans, the stateful
loop is explicit state passing over a `SysState` record, and the random
source is an explicit stream of draws.
-/

namespace Esplora

/-- `const int ROWS = 32`. -/
def ROWS : Nat := 32

/-- `const int COLS = 32`. -/
def COLS : Nat := 32

/-- `boolean current_state[ROWS][COLS]`: a grid is a boolean value per
(row, column) coordinate; only coordinates below `ROWS`/`COLS` are
meaningful. -/
abbrev Grid := Nat → Nat → Bool

/-- The explicit boundary substitution of `next()`:
`if (y == -1) y = 31; else if (y == 32) y = 0;` (same for `x`). -/
def wrap (v : Int) : Int :=
  if v = -1 then 31 else if v = 32 then 0 else v

/-- The 8 offset pairs `(i, j)` with `i, j ∈ {-1,0,1}` and `i ≠ 0 || j ≠ 0`,
in the order the two nested loops of `next()` visit them. -/
def neighborOffsets : List (Int × Int) :=
  [(-1, -1), (-1, 0), (-1, 1), (0, -1), (0, 1), (1, -1), (1, 0), (1, 1)]

/-- The 8 wrapped neighbor coordinates of cell `(r, c)` computed by the
inner loops of `next()`: `y = wrap (r + i)`, `x = wrap (c + j)`. -/
def neighborCoords (r c : Nat) : List (Nat × Nat) :=
  neighborOffsets.map fun p =>
    ((wrap ((r : Int) + p.1)).toNat, (wrap ((c : Int) + p.2)).toNat)

/-- `liveNeighbors`: the number of wrapped neighbors of `(r, c)` for which
`current_state[y][x]` holds. -/
def liveNeighbors (g : Grid) (r c : Nat) : Nat :=
  (neighborCoords r c).countP fun q => g q.1 q.2

/-- The per-cell rule of `next()`:
live with 2 or 3 live neighbors stays live, dead with exactly 3 live
neighbors becomes live, everything else is dead. -/
def nextCell (g : Grid) (r c : Nat) : Bool :=
  if g r c && decide (2 ≤ liveNeighbors g r c)
      && decide (liveNeighbors g r c ≤ 3) then
    true
  else if !(g r c) && decide (liveNeighbors g r c = 3) then
    true
  else
    false

/-- A single array store `buf[r][c] = v`. -/
def writeCell (buf : Grid) (r c : Nat) (v : Bool) : Grid :=
  fun r' c' => if r' = r ∧ c' = c then v else buf r' c'

/-- The inner column loop of `next()` on row `r`: store
`next[r][c] = nextCell` for `c = 0, …, n-1` into the buffer. -/
def writeRow (g : Grid) (r : Nat) (buf : Grid) : Nat → Grid
  | 0 => buf
  | c + 1 => writeCell (writeRow g r buf c) r c (nextCell g r c)

/-- The outer row loop of `next()`: fill rows `0, …, m-1` of the buffer. -/
def writeRows (g : Grid) (buf : Grid) : Nat → Grid
  | 0 => buf
  | r + 1 => writeRow g r (writeRows g buf r) COLS

/-- The batched transition of `next()`: fill the whole separate buffer
`next[32][32]` (whose initial, never-read contents are the arbitrary
`init`) from the snapshot `g` of `current_state`, then `memcpy` installs
it as the new state. -/
def nextBatched (init g : Grid) : Grid :=
  writeRows g init ROWS

/-- Reference transition: each cell computed independently from the
snapshot `g` and committed all at once. -/
def nextGrid (g : Grid) : Grid :=
  fun r c => nextCell g r c

/-! Specification-side transition, written from the spec's words (§4.2):
wrapped coordinates are `(r + dr) mod ROWS`, `(c + dc) mod COLS`, and a
cell is alive in the next generation iff it is alive with neighbor count
2 or 3, or dead with neighbor count exactly 3. -/

/-- Spec §4.2 neighbor count, with wrap by `mod`. -/
def specNeighborCount (g : Grid) (r c : Nat) : Nat :=
  neighborOffsets.countP fun p =>
    g ((((r : Int) + p.1) % 32).toNat) ((((c : Int) + p.2) % 32).toNat)

/-- Spec §4.2 rule: alive ∧ count ∈ {2,3} → alive; dead ∧ count = 3 →
alive; otherwise dead. -/
def specNextCell (g : Grid) (r c : Nat) : Bool :=
  (g r c && (decide (specNeighborCount g r c = 2)
      || decide (specNeighborCount g r c = 3)))
    || (!(g r c) && decide (specNeighborCount g r c = 3))

/-! Seeding (`randomize()`).  `num = random(1, 100)` draws a uniform
integer in [1, 99]; the random source is embedded as an explicit stream
`draws : Nat → Nat` consumed one value per loop iteration. -/

/-- `value = num >= slider`: the cell is set alive iff the draw is at
least the mapped slider density. -/
def seedAlive (slider num : Nat) : Bool :=
  decide (num ≥ slider)

/-- The inner column loop of `randomize()` on row `r`: starting from
buffer/draw-counter pair `p`, write columns `0, …, n-1` of row `r`, each
consuming the next draw of the stream. -/
def seedRow (slider : Nat) (draws : Nat → Nat) (r : Nat)
    (p : Grid × Nat) : Nat → Grid × Nat
  | 0 => p
  | c + 1 =>
    let t := seedRow slider draws r p c
    (writeCell t.1 r c (seedAlive slider (draws t.2)), t.2 + 1)

/-- The outer row loop of `randomize()`: fill rows `0, …, m-1`. -/
def seedRows (slider : Nat) (draws : Nat → Nat) (init : Grid) :
    Nat → Grid × Nat
  | 0 => (init, 0)
  | r + 1 => seedRow slider draws r (seedRows slider draws init r) COLS

/-- `randomize()`: overwrite every cell of `current_state` (previous
contents `g`) with `random(1,100) >= slider`. -/
def randomize (slider : Nat) (draws : Nat → Nat) (g : Grid) : Grid :=
  (seedRows slider draws g ROWS).1

/-- The space of values `random(1, 100)` can return: the integers
1 through 99, each equally likely. -/
def drawSpace : List Nat :=
  (List.range 99).map (· + 1)

/-- Number of draws in `drawSpace` that make a cell alive at density
`slider`. -/
def aliveDrawCount (slider : Nat) : Nat :=
  drawSpace.countP (seedAlive slider)

/-! The mutable program state: `current_state`, `play`, the cursor
(`lastR`, `lastC`) and the remembered joystick-button level
(`lastJoystickButton`, `true` = HIGH = not pressed). -/

structure SysState where
  grid : Grid
  play : Bool
  lastR : Nat
  lastC : Nat
  lastJoystickButton : Bool

/-- The file-scope initial values: `play = false`, `lastR = lastC = 0`,
`lastJoystickButton = HIGH`; the grid is whatever `randomize()` produced
in `setup()`. -/
def initState (g : Grid) : SysState :=
  { grid := g, play := false, lastR := 0, lastC := 0
    lastJoystickButton := true }

/-- `moveCursorLeft()`: `lastC = lastC == 0 ? 31 : lastC - 1`. -/
def moveCursorLeft (s : SysState) : SysState :=
  { s with lastC := if s.lastC = 0 then 31 else s.lastC - 1 }

/-- `moveCursorRight()`: `lastC = lastC == 31 ? 0 : lastC + 1`. -/
def moveCursorRight (s : SysState) : SysState :=
  { s with lastC := if s.lastC = 31 then 0 else s.lastC + 1 }

/-- `moveCursorUp()`: `lastR = lastR == 31 ? 0 : lastR + 1`. -/
def moveCursorUp (s : SysState) : SysState :=
  { s with lastR := if s.lastR = 31 then 0 else s.lastR + 1 }

/-- `moveCursorDown()`: `lastR = lastR == 0 ? 31 : lastR - 1`. -/
def moveCursorDown (s : SysState) : SysState :=
  { s with lastR := if s.lastR = 0 then 31 else s.lastR - 1 }

/-- `invertCurrentCell()`: flip the cell under the cursor. -/
def invertCurrentCell (s : SysState) : SysState :=
  { s with grid :=
      writeCell s.grid s.lastR s.lastC (!(s.grid s.lastR s.lastC)) }

/-- One tick's raw input readings: joystick axes, joystick-button level
and the four switch levels (`true` = HIGH = not pressed), plus the mapped
slider value and random stream that a `randomize()` call would consume. -/
structure Input where
  joyX : Int
  joyY : Int
  joystickButton : Bool
  swUp : Bool
  swDown : Bool
  swRight : Bool
  swLeft : Bool
  slider : Nat
  draws : Nat → Nat

/-- The cursor-movement phase at the top of `loop()`: an `if/else if` on
`joyX`, then one on `joyY`. -/
def movePhase (s : SysState) (inp : Input) : SysState :=
  let s1 :=
    if inp.joyX > 256 then moveCursorLeft s
    else if inp.joyX < -256 then moveCursorRight s
    else s
  if inp.joyY < -256 then moveCursorDown s1
  else if inp.joyY > 256 then moveCursorUp s1
  else s1

/-- The five actions the button chain of `loop()` can take. -/
inductive Action where
  | reset
  | pause
  | playOn
  | stepOnce
  | toggle
deriving DecidableEq

/-- The `if/else if` button chain of `loop()`: which action fires, given
the remembered previous joystick-button level `last`.  A switch reads LOW
(`false`) when pressed. -/
def chainAction (last : Bool) (inp : Input) : Option Action :=
  if inp.swUp = false then some .reset
  else if inp.swDown = false then some .pause
  else if inp.swRight = false then some .playOn
  else if inp.swLeft = false then some .stepOnce
  else if inp.joystickButton = false ∧ last = true then some .toggle
  else none

/-- Effect of the chosen branch on the state. -/
def applyAction (s : SysState) (inp : Input) : Option Action → SysState
  | some .reset => { s with grid := randomize inp.slider inp.draws s.grid }
  | some .pause => { s with play := false }
  | some .playOn => { s with play := true }
  | some .stepOnce => s
  | some .toggle => invertCurrentCell s
  | none => s

/-- Whether the chosen branch set the local `advance` flag. -/
def advanceFlag : Option Action → Bool
  | some .stepOnce => true
  | _ => false

/-- Did the `invertCurrentCell()` branch fire this tick? -/
def toggleFired (s : SysState) (inp : Input) : Bool :=
  decide (chainAction s.lastJoystickButton inp = some Action.toggle)

/-- One iteration of `loop()`: move the cursor, run the button chain,
advance a generation if `advance || play`, and remember the
joystick-button level unconditionally. -/
def step (s : SysState) (inp : Input) : SysState :=
  let s1 := movePhase s inp
  let a := chainAction s1.lastJoystickButton inp
  let s2 := applyAction s1 inp a
  let s3 :=
    if advanceFlag a || s2.play then { s2 with grid := nextGrid s2.grid }
    else s2
  { s3 with lastJoystickButton := inp.joystickButton }

/-- The trace of states: `runTrace s0 ins k` is the state at the start of
tick `k`, where tick `k` consumes input `ins k`. -/
def runTrace (s0 : SysState) (ins : Nat → Input) : Nat → SysState
  | 0 => s0
  | k + 1 => step (runTrace s0 ins k) (ins k)

/-- The five operations of the Cursor Model (§4.3). -/
inductive CursorOp where
  | left
  | right
  | up
  | down
  | toggle

/-- Apply one Cursor Model operation. -/
def applyCursorOp (s : SysState) : CursorOp → SysState
  | .left => moveCursorLeft s
  | .right => moveCursorRight s
  | .up => moveCursorUp s
  | .down => moveCursorDown s
  | .toggle => invertCurrentCell s

/-- The cursor bounds invariant (§3). -/
def cursorInv (s : SysState) : Prop :=
  s.lastR < ROWS ∧ s.lastC < COLS

/-- Horizontal blinker: alive exactly at (16,16), (16,17), (16,18). -/
def blinkerRow : Grid :=
  fun r c => decide (r = 16) && (decide (c = 16) || decide (c = 17)
    || decide (c = 18))

/-- Vertical blinker: alive exactly at (15,17), (16,17), (17,17). -/
def blinkerCol : Grid :=
  fun r c => (decide (r = 15) || decide (r = 16) || decide (r = 17))
    && decide (c = 17)

/-- An all-dead grid, used for concrete witnesses. -/
def deadGrid : Grid := fun _ _ => false

/-! ## Lemmas about the transition engine -/

lemma wrap_eq_emod (v : Int) (h1 : -1 ≤ v) (h2 : v ≤ 32) :
    wrap v = v % 32 := by
  unfold wrap
  split_ifs <;> omega

lemma liveNeighbors_eq_spec (g : Grid) (r c : Nat) (hr : r < 32)
    (hc : c < 32) : liveNeighbors g r c = specNeighborCount g r c := by
  unfold liveNeighbors neighborCoords specNeighborCount
  rw [List.countP_map]
  refine List.countP_congr ?_
  intro p hp
  have hb : -1 ≤ p.1 ∧ p.1 ≤ 1 ∧ -1 ≤ p.2 ∧ p.2 ≤ 1 := by
    simp only [neighborOffsets, List.mem_cons, List.not_mem_nil,
      or_false] at hp
    rcases hp with h | h | h | h | h | h | h | h <;> subst h <;> norm_num
  have e1 : wrap ((r : Int) + p.1) = ((r : Int) + p.1) % 32 :=
    wrap_eq_emod _ (by omega) (by omega)
  have e2 : wrap ((c : Int) + p.2) = ((c : Int) + p.2) % 32 :=
    wrap_eq_emod _ (by omega) (by omega)
  simp [Function.comp, e1, e2]

lemma rule_shape (b : Bool) (n : Nat) :
    (if b && decide (2 ≤ n) && decide (n ≤ 3) then true
     else if !b && decide (n = 3) then true else false) =
      ((b && (decide (n = 2) || decide (n = 3)))
        || (!b && decide (n = 3))) := by
  cases b
  all_goals
    by_cases h2 : n = 2 <;> by_cases h3 : n = 3 <;>
      simp [h2, h3] <;> omega

lemma nextCell_eq_spec (g : Grid) (r c : Nat) (hr : r < 32) (hc : c < 32) :
    nextCell g r c = specNextCell g r c := by
  unfold nextCell specNextCell
  rw [← liveNeighbors_eq_spec g r c hr hc]
  exact rule_shape (g r c) (liveNeighbors g r c)

lemma writeRow_eval (g buf : Grid) (r n r' c' : Nat) :
    writeRow g r buf n r' c' =
      if r' = r ∧ c' < n then nextCell g r' c' else buf r' c' := by
  induction n with
  | zero => simp [writeRow]
  | succ n ih =>
    simp only [writeRow, writeCell]
    by_cases h1 : r' = r
    · subst h1
      by_cases h2 : c' = n
      · subst h2; simp
      · have h3 : (c' < n + 1) ↔ (c' < n) := by omega
        simp [h2, ih, h3]
    · simp [h1, ih]

lemma writeRows_eval (g buf : Grid) (m r' c' : Nat) :
    writeRows g buf m r' c' =
      if r' < m ∧ c' < COLS then nextCell g r' c' else buf r' c' := by
  induction m with
  | zero => simp [writeRows]
  | succ m ih =>
    simp only [writeRows, writeRow_eval]
    by_cases h1 : r' = m
    · subst h1
      by_cases h2 : c' < COLS <;> simp [h2, ih]
    · have h3 : (r' < m + 1) ↔ (r' < m) := by omega
      simp [h1, ih, h3]

/-! ## Claim theorems: transition engine -/

/-- C1: the transition engine implements exactly the spec's rule — a cell
is alive in the next generation iff it is alive with toroidal neighbor
count 2 or 3, or dead with count exactly 3, where neighbors are the 8
offsets wrapped mod ROWS/COLS — and the neighbor set of (0,0) contains
(31,31), (31,0) and (0,31). -/
theorem C1_transition_rule :
    (∀ (g : Grid) (r c : Nat), r < ROWS → c < COLS →
      nextCell g r c = specNextCell g r c) ∧
      (31, 31) ∈ neighborCoords 0 0 ∧ (31, 0) ∈ neighborCoords 0 0 ∧
      (0, 31) ∈ neighborCoords 0 0 := by
  refine ⟨fun g r c hr hc => nextCell_eq_spec g r c hr hc,
    by decide, by decide, by decide⟩

/-- Witness for C1 at a concrete grid and cell. -/
theorem C1_transition_rule_witness :
    nextCell blinkerRow 0 0 = specNextCell blinkerRow 0 0 :=
  C1_transition_rule.1 blinkerRow 0 0 (by decide) (by decide)

/-- C2: the batched transition (separate buffer, then commit) computes,
at every in-range cell and for every initial buffer content, exactly the
reference value obtained cell-by-cell from a snapshot of the current
grid; in particular the result depends only on the current grid. -/
theorem C2_snapshot_semantics (init g : Grid) (r c : Nat)
    (hr : r < ROWS) (hc : c < COLS) :
    nextBatched init g r c = nextGrid g r c := by
  simp [nextBatched, writeRows_eval, nextGrid, hr, hc]

/-- Witness for C2 at a concrete buffer, grid and cell. -/
theorem C2_snapshot_semantics_witness :
    nextBatched (fun _ _ => true) blinkerRow 15 17 =
      nextGrid blinkerRow 15 17 :=
  C2_snapshot_semantics (fun _ _ => true) blinkerRow 15 17
    (by decide) (by decide)

/-! ## Lemmas about seeding -/

lemma seedRow_eval (slider : Nat) (draws : Nat → Nat) (r : Nat)
    (p : Grid × Nat) (n : Nat) :
    (seedRow slider draws r p n).2 = p.2 + n ∧
      ∀ r' c', (seedRow slider draws r p n).1 r' c' =
        if r' = r ∧ c' < n then seedAlive slider (draws (p.2 + c'))
        else p.1 r' c' := by
  induction n with
  | zero => simp [seedRow]
  | succ n ih =>
    obtain ⟨ih2, ih1⟩ := ih
    refine ⟨by simp only [seedRow]; omega, ?_⟩
    intro r' c'
    simp only [seedRow, writeCell, ih2]
    by_cases h1 : r' = r
    · subst h1
      by_cases h2 : c' = n
      · subst h2; simp
      · have h3 : (c' < n + 1) ↔ (c' < n) := by omega
        simp [h2, ih1, h3]
    · simp [h1, ih1]

lemma seedRows_eval (slider : Nat) (draws : Nat → Nat) (init : Grid)
    (m : Nat) :
    (seedRows slider draws init m).2 = m * COLS ∧
      ∀ r' c', (seedRows slider draws init m).1 r' c' =
        if r' < m ∧ c' < COLS then
          seedAlive slider (draws (r' * COLS + c'))
        else init r' c' := by
  induction m with
  | zero => simp [seedRows]
  | succ m ih =>
    obtain ⟨ih2, ih1⟩ := ih
    obtain ⟨hs2, hs1⟩ :=
      seedRow_eval slider draws m (seedRows slider draws init m) COLS
    constructor
    · rw [show seedRows slider draws init (m + 1) =
          seedRow slider draws m (seedRows slider draws init m) COLS
        from rfl, hs2, ih2]
      ring
    · intro r' c'
      rw [show seedRows slider draws init (m + 1) =
          seedRow slider draws m (seedRows slider draws init m) COLS
        from rfl, hs1 r' c', ih2, ih1 r' c']
      by_cases h1 : r' = m
      · subst h1
        by_cases h2 : c' < COLS <;> simp [h2]
      · have h3 : (r' < m + 1) ↔ (r' < m) := by omega
        simp [h1, h3]

/-! ## Claim theorems: seeding -/

/-- C3: seeding at density `slider` sets cell (r, c) alive iff the draw
it consumes (the `r * COLS + c`-th value of the stream, each drawn from
[1,99]) is at least `slider`; consequently, when every draw lies in
[1,99], seeding at density 100 leaves every cell dead. -/
theorem C3_seeding_rule :
    (∀ (slider : Nat) (draws : Nat → Nat) (g : Grid) (r c : Nat),
      r < ROWS → c < COLS →
      randomize slider draws g r c =
        seedAlive slider (draws (r * COLS + c))) ∧
    (∀ (draws : Nat → Nat) (g : Grid),
      (∀ n, 1 ≤ draws n ∧ draws n ≤ 99) →
      ∀ (r c : Nat), r < ROWS → c < COLS →
        randomize 100 draws g r c = false) := by
  have hchar : ∀ (slider : Nat) (draws : Nat → Nat) (g : Grid) (r c : Nat),
      r < ROWS → c < COLS →
      randomize slider draws g r c =
        seedAlive slider (draws (r * COLS + c)) := by
    intro slider draws g r c hr hc
    have h := (seedRows_eval slider draws g ROWS).2 r c
    rw [randomize, h]
    simp [hr, hc]
  refine ⟨hchar, ?_⟩
  intro draws g hdr r c hr hc
  rw [hchar 100 draws g r c hr hc]
  have h99 := hdr (r * COLS + c)
  simp only [seedAlive, decide_eq_false_iff_not]
  omega

/-- Witness for C3: with a constant stream of draws of 50, density 100
leaves cell (3, 4) dead. -/
theorem C3_seeding_rule_witness :
    randomize 100 (fun _ => 50) blinkerRow 3 4 = false :=
  C3_seeding_rule.2 (fun _ => 50) blinkerRow
    (fun _ => ⟨by norm_num, by norm_num⟩) 3 4 (by decide) (by decide)

set_option maxRecDepth 4000

/-- C8 counterexample: at density 50, the fraction of the 99 equiprobable
draws that set a cell alive is 50/99, which is not (100 − 50)/100. -/
theorem C8_counterexample :
    ¬ ((aliveDrawCount 50 : ℚ) / 99 = ((100 : ℚ) - 50) / 100) := by
  have h : aliveDrawCount 50 = 50 := by decide
  rw [h]
  norm_num

/-- C8 (amended): for every density D ≤ 100, the fraction of the 99
equiprobable draws in [1,99] that set a cell alive equals
(100 − max D 1)/99 — that is, (100 − D)/99 for 1 ≤ D ≤ 100 and 99/99
for D = 0 — not (100 − D)/100. -/
theorem C8_alive_fraction (D : Nat) (hD : D ≤ 100) :
    (aliveDrawCount D : ℚ) / 99 =
      ((100 : ℚ) - max (D : ℚ) 1) / 99 := by
  have key : ∀ d, d < 101 → aliveDrawCount d = 100 - max d 1 := by decide
  have h := key D (by omega)
  have hle : max D 1 ≤ 100 := max_le hD (by norm_num)
  rw [h, Nat.cast_sub hle]
  push_cast
  norm_num

/-- Witness for C8 (amended) at density 50. -/
theorem C8_alive_fraction_witness :
    (aliveDrawCount 50 : ℚ) / 99 =
      ((100 : ℚ) - max ((50 : Nat) : ℚ) 1) / 99 :=
  C8_alive_fraction 50 (by norm_num)

/-! ## Claim theorems: cursor -/

/-- C4 counterexample: the claim predicts that moving the cursor up from
row 0 decrements the row modulo ROWS, landing on row 31, but
`moveCursorUp()` increments the row and lands on row 1. -/
theorem C4_counterexample :
    ¬ ((moveCursorUp (initState deadGrid)).lastR =
        ((initState deadGrid).lastR + ROWS - 1) % ROWS) := by
  decide

/-- C4 (amended): `moveCursorLeft` decrements the column by 1 and
`moveCursorRight` increments it by 1, wrapping modulo COLS; `moveCursorUp`
INCREMENTS the row by 1 and `moveCursorDown` DECREMENTS it by 1, wrapping
modulo ROWS. -/
theorem C4_cursor_wrap (s : SysState) (hr : s.lastR < ROWS)
    (hc : s.lastC < COLS) :
    (moveCursorLeft s).lastC = (s.lastC + COLS - 1) % COLS ∧
    (moveCursorRight s).lastC = (s.lastC + 1) % COLS ∧
    (moveCursorUp s).lastR = (s.lastR + 1) % ROWS ∧
    (moveCursorDown s).lastR = (s.lastR + ROWS - 1) % ROWS := by
  simp only [ROWS, COLS] at hr hc
  refine ⟨?_, ?_, ?_, ?_⟩ <;>
    simp only [moveCursorLeft, moveCursorRight, moveCursorUp,
      moveCursorDown, ROWS, COLS] <;>
    split_ifs <;> omega

/-- Witness for C4 (amended) at the initial cursor position. -/
theorem C4_cursor_wrap_witness :
    (moveCursorUp (initState deadGrid)).lastR =
      ((initState deadGrid).lastR + 1) % ROWS :=
  (C4_cursor_wrap (initState deadGrid) (by decide) (by decide)).2.2.1

/-- C5: starting from the initial cursor position (0,0), every finite
sequence of cursor move and toggle operations leaves the cursor with
row < ROWS and column < COLS, and each single operation preserves this
bounds invariant. -/
theorem C5_cursor_bounds :
    (∀ (g : Grid) (ops : List CursorOp),
      cursorInv (ops.foldl applyCursorOp (initState g))) ∧
    (∀ (s : SysState) (op : CursorOp),
      cursorInv s → cursorInv (applyCursorOp s op)) := by
  have hpres : ∀ (s : SysState) (op : CursorOp),
      cursorInv s → cursorInv (applyCursorOp s op) := by
    intro s op h
    obtain ⟨h1, h2⟩ := h
    simp only [cursorInv, ROWS, COLS] at h1 h2 ⊢
    cases op <;>
      simp only [applyCursorOp, moveCursorLeft, moveCursorRight,
        moveCursorUp, moveCursorDown, invertCurrentCell] <;>
      constructor <;>
      first
        | (split_ifs <;> omega)
        | omega
  have hall : ∀ (ops : List CursorOp) (s : SysState),
      cursorInv s → cursorInv (ops.foldl applyCursorOp s) := by
    intro ops
    induction ops with
    | nil => intro s h; exact h
    | cons op rest ih => intro s h; exact ih _ (hpres s op h)
  exact ⟨fun g ops => hall ops _
    (by constructor <;> simp [initState, cursorInv, ROWS, COLS]), hpres⟩

/-- Witness for C5 applying one operation to the initial state. -/
theorem C5_cursor_bounds_witness :
    cursorInv (applyCursorOp (initState deadGrid) CursorOp.up) :=
  C5_cursor_bounds.2 (initState deadGrid) CursorOp.up
    ⟨by decide, by decide⟩

/-! ## Lemmas about the interaction loop -/

lemma step_lastButton (s : SysState) (inp : Input) :
    (step s inp).lastJoystickButton = inp.joystickButton := rfl

lemma runTrace_lastButton (s0 : SysState) (ins : Nat → Input) (k : Nat) :
    (runTrace s0 ins (k + 1)).lastJoystickButton =
      (ins k).joystickButton := rfl

lemma movePhase_preserve (s : SysState) (inp : Input) :
    (movePhase s inp).grid = s.grid ∧ (movePhase s inp).play = s.play ∧
      (movePhase s inp).lastJoystickButton = s.lastJoystickButton := by
  simp only [movePhase]
  split_ifs <;>
    simp [moveCursorLeft, moveCursorRight, moveCursorUp, moveCursorDown]

lemma chainAction_toggle_iff (last : Bool) (inp : Input) :
    chainAction last inp = some Action.toggle ↔
      inp.swUp = true ∧ inp.swDown = true ∧ inp.swRight = true ∧
        inp.swLeft = true ∧ inp.joystickButton = false ∧ last = true := by
  unfold chainAction
  split_ifs with h1 h2 h3 h4 h5 <;> simp_all

lemma toggleFired_iff (s : SysState) (inp : Input) :
    toggleFired s inp = true ↔
      inp.swUp = true ∧ inp.swDown = true ∧ inp.swRight = true ∧
        inp.swLeft = true ∧ inp.joystickButton = false ∧
        s.lastJoystickButton = true := by
  rw [toggleFired, decide_eq_true_eq]
  exact chainAction_toggle_iff s.lastJoystickButton inp

lemma toggleFired_of_held (s0 : SysState) (ins : Nat → Input) (k : Nat)
    (hk : (ins k).joystickButton = false) :
    toggleFired (runTrace s0 ins (k + 1)) (ins (k + 1)) = false := by
  cases hft : toggleFired (runTrace s0 ins (k + 1)) (ins (k + 1))
  · rfl
  · have h6 := (toggleFired_iff _ _).mp hft
    rw [runTrace_lastButton, hk] at h6
    exact absurd h6.2.2.2.2.2 (by simp)

/-! ## Claim theorems: interaction loop -/

/-- C6: the cell toggle is edge-triggered.  (a) If the joystick button
reads pressed on two consecutive ticks, no toggle fires on the second.
(b) If the button is up on tick t and then held pressed from tick t+1
through T with no mode switch pressed, the toggle fires on tick t+1 and
on no later tick up to T.  (c) When the toggle fires while paused, the
step flips exactly the selected cell of the grid. -/
theorem C6_toggle_edge_triggered :
    (∀ (s0 : SysState) (ins : Nat → Input) (t : Nat),
      (ins t).joystickButton = false →
      (ins (t + 1)).joystickButton = false →
      toggleFired (runTrace s0 ins (t + 1)) (ins (t + 1)) = false) ∧
    (∀ (s0 : SysState) (ins : Nat → Input) (t T : Nat), t < T →
      (ins t).joystickButton = true →
      (∀ k, t < k → k ≤ T → (ins k).joystickButton = false ∧
        (ins k).swUp = true ∧ (ins k).swDown = true ∧
        (ins k).swRight = true ∧ (ins k).swLeft = true) →
      toggleFired (runTrace s0 ins (t + 1)) (ins (t + 1)) = true ∧
        ∀ k, t + 1 < k → k ≤ T →
          toggleFired (runTrace s0 ins k) (ins k) = false) ∧
    (∀ (s : SysState) (inp : Input), toggleFired s inp = true →
      s.play = false →
      (step s inp).grid = writeCell s.grid (movePhase s inp).lastR
        (movePhase s inp).lastC
        (!(s.grid (movePhase s inp).lastR (movePhase s inp).lastC))) := by
  refine ⟨?_, ?_, ?_⟩
  · intro s0 ins t h1 _
    exact toggleFired_of_held s0 ins t h1
  · intro s0 ins t T hT h1 h2
    constructor
    · obtain ⟨hb, hsu, hsd, hsr, hsl⟩ := h2 (t + 1) (by omega) (by omega)
      refine (toggleFired_iff _ _).mpr ⟨hsu, hsd, hsr, hsl, hb, ?_⟩
      rw [runTrace_lastButton, h1]
    · intro k hk1 hk2
      obtain ⟨k', rfl⟩ : ∃ k', k = k' + 1 := ⟨k - 1, by omega⟩
      exact toggleFired_of_held s0 ins k'
        (h2 k' (by omega) (by omega)).1
  · intro s inp hf hp
    have h6 := (toggleFired_iff s inp).mp hf
    obtain ⟨hm1, hm2, hm3⟩ := movePhase_preserve s inp
    have hca : chainAction (movePhase s inp).lastJoystickButton inp =
        some Action.toggle := by
      rw [hm3]
      exact (chainAction_toggle_iff _ _).mpr h6
    show (step s inp).grid = _
    rw [step]
    simp only [hca, applyAction, advanceFlag, invertCurrentCell]
    rw [if_neg (by simp [hm2, hp])]
    rw [hm1]

/-- Witness for C6: a button press on tick 0 held through tick 2 fires
the toggle exactly on tick 1. -/
theorem C6_toggle_edge_triggered_witness :
    (toggleFired
      (runTrace (initState deadGrid) (fun k =>
        { joyX := 0, joyY := 0, joystickButton := decide (k = 0),
          swUp := true, swDown := true, swRight := true, swLeft := true,
          slider := 0, draws := fun _ => 1 }) 1)
      ((fun k =>
        { joyX := 0, joyY := 0, joystickButton := decide (k = 0),
          swUp := true, swDown := true, swRight := true, swLeft := true,
          slider := 0, draws := fun _ => 1 } : Nat → Input) 1) = true) ∧
    (toggleFired
      (runTrace (initState deadGrid) (fun k =>
        { joyX := 0, joyY := 0, joystickButton := decide (k = 0),
          swUp := true, swDown := true, swRight := true, swLeft := true,
          slider := 0, draws := fun _ => 1 }) 2)
      ((fun k =>
        { joyX := 0, joyY := 0, joystickButton := decide (k = 0),
          swUp := true, swDown := true, swRight := true, swLeft := true,
          slider := 0, draws := fun _ => 1 } : Nat → Input) 2) = false) := by
  have h := C6_toggle_edge_triggered.2.1 (initState deadGrid)
    (fun k =>
      { joyX := 0, joyY := 0, joystickButton := decide (k = 0),
        swUp := true, swDown := true, swRight := true, swLeft := true,
        slider := 0, draws := fun _ => 1 }) 0 2 (by omega) (by decide)
    (fun k hk1 _ => by
      refine ⟨?_, rfl, rfl, rfl, rfl⟩
      simp only [decide_eq_false_iff_not]
      omega)
  exact ⟨h.1, h.2 2 (by omega) (by omega)⟩

/-- C7: the button chain chooses at most one action per tick, by the
fixed priority order reset > pause > play > single-step > cell-toggle:
an action is chosen exactly when its own input is active and every
higher-priority input is inactive. -/
theorem C7_action_priority (last : Bool) (inp : Input) (a : Action) :
    chainAction last inp = some a ↔
      (a = .reset ∧ inp.swUp = false) ∨
      (a = .pause ∧ inp.swUp = true ∧ inp.swDown = false) ∨
      (a = .playOn ∧ inp.swUp = true ∧ inp.swDown = true ∧
        inp.swRight = false) ∨
      (a = .stepOnce ∧ inp.swUp = true ∧ inp.swDown = true ∧
        inp.swRight = true ∧ inp.swLeft = false) ∨
      (a = .toggle ∧ inp.swUp = true ∧ inp.swDown = true ∧
        inp.swRight = true ∧ inp.swLeft = true ∧
        inp.joystickButton = false ∧ last = true) := by
  unfold chainAction
  split_ifs with h1 h2 h3 h4 h5 <;> cases a <;> simp_all

/-- C10: a falling edge of the joystick button that coincides with a
pressed mode switch is dropped entirely: if the button is up on tick t,
pressed from tick t+1 through T, and some mode switch is pressed on tick
t+1, then no toggle fires on any tick in [t+1, T]. -/
theorem C10_coinciding_edge_dropped (s0 : SysState) (ins : Nat → Input)
    (t T : Nat) (_h1 : (ins t).joystickButton = true)
    (h2 : ∀ k, t < k → k ≤ T → (ins k).joystickButton = false)
    (h3 : (ins (t + 1)).swUp = false ∨ (ins (t + 1)).swDown = false ∨
      (ins (t + 1)).swRight = false ∨ (ins (t + 1)).swLeft = false) :
    ∀ k, t < k → k ≤ T →
      toggleFired (runTrace s0 ins k) (ins k) = false := by
  intro k hk1 hk2
  by_cases hk : k = t + 1
  · subst hk
    cases hft : toggleFired (runTrace s0 ins (t + 1)) (ins (t + 1))
    · rfl
    · obtain ⟨hsu, hsd, hsr, hsl, _, _⟩ := (toggleFired_iff _ _).mp hft
      rcases h3 with h | h | h | h <;> simp_all
  · obtain ⟨k', rfl⟩ : ∃ k', k = k' + 1 := ⟨k - 1, by omega⟩
    exact toggleFired_of_held s0 ins k' (h2 k' (by omega) (by omega))

/-- Witness for C10: pressing the joystick button together with the
reset switch on tick 1 while holding the button through tick 2 never
fires the toggle. -/
theorem C10_coinciding_edge_dropped_witness :
    toggleFired
      (runTrace (initState deadGrid) (fun k =>
        { joyX := 0, joyY := 0, joystickButton := decide (k = 0),
          swUp := decide (k ≠ 1), swDown := true, swRight := true,
          swLeft := true, slider := 0, draws := fun _ => 1 }) 2)
      ((fun k =>
        { joyX := 0, joyY := 0, joystickButton := decide (k = 0),
          swUp := decide (k ≠ 1), swDown := true, swRight := true,
          swLeft := true, slider := 0, draws := fun _ => 1 } :
            Nat → Input) 2) = false :=
  C10_coinciding_edge_dropped (initState deadGrid)
    (fun k =>
      { joyX := 0, joyY := 0, joystickButton := decide (k = 0),
        swUp := decide (k ≠ 1), swDown := true, swRight := true,
        swLeft := true, slider := 0, draws := fun _ => 1 }) 0 2
    (by decide)
    (fun k hk1 _ => by
      simp only [decide_eq_false_iff_not]
      omega)
    (Or.inl (by decide)) 2 (by omega) (by omega)

/-- C9: one transition maps the horizontal blinker at
(16,16)–(16,18) to the vertical blinker at (15,17)–(17,17). -/
theorem C9_blinker (r : Nat) (hr : r < ROWS) (c : Nat) (hc : c < COLS) :
    nextGrid blinkerRow r c = blinkerCol r c := by
  revert r c
  decide

/-- Witness for C9 at cell (15, 17). -/
theorem C9_blinker_witness :
    nextGrid blinkerRow 15 17 = blinkerCol 15 17 :=
  C9_blinker 15 (by decide) 17 (by decide)

end Esplora
